import Mathlib

/-
A shallow embedding of the `sleepy` REST-framework core (src/core.go) and
proofs of the specified properties of its dispatcher, registration and
start-up logic.

Modelling conventions:
- `url.Values` (Go: `map[string][]string`) is an association list from
  field names to value sequences.
- A resource is a Go `interface{}` value inspected with type assertions
  against the four capability interfaces; we embed it as a record of four
  optional handler functions, one per capability.
- The `http.ResponseWriter` is write-only in the handler; we embed the
  handler as a function returning the trace of calls it performs on the
  writer (plus, for observability, the capability invocations it makes).
- Form parsing, the JSON serializer and the HTTP transport/router are
  external collaborators of this core (spec sections 1 and 6); they are
  modelled from the spec where their code is not part of this repository.
-/

namespace Sleepy

/-- Go's `url.Values`: a multi-valued string mapping. -/
abbrev Values := List (String × List String)

/-- The verb constants of src/core.go lines 11-16. -/
def GET : String := "GET"

def POST : String := "POST"

def PUT : String := "PUT"

def DELETE : String := "DELETE"

/-- `http.StatusBadRequest`. -/
def statusBadRequest : Int := 400

/-- `http.StatusMethodNotAllowed`. -/
def statusMethodNotAllowed : Int := 405

/-- `http.StatusInternalServerError`. -/
def statusInternalServerError : Int := 500

/-- A Go value handed to `json.Marshal` as `interface\x7b\x7d` data.
`chanVal` stands for the values `json.Marshal` rejects (channels,
functions, cyclic data, ...): marshalling them returns an error and a nil
byte slice. -/
inductive GoValue where
  | null
  | boolVal (b : Bool)
  | intVal (n : Int)
  | strVal (s : String)
  | arr (elems : List GoValue)
  | obj (fields : List (String × GoValue))
  | chanVal
  deriving Repr, Inhabited

/-- JSON escaping of one character (quote and backslash). -/
def jsonEscapeChar (c : Char) : String :=
  if c = '"' then "\\\"" else if c = '\\' then "\\\\" else String.singleton c

/-- A JSON string literal for `s`. -/
def jsonQuote (s : String) : String :=
  "\"" ++ String.join (s.toList.map jsonEscapeChar) ++ "\""

mutual

/-- Modelled from the spec: the JSON serializer is an external
collaborator (spec section 6, item c); `none` is a serialization error,
in which case `json.Marshal` returns a nil (empty) byte slice. -/
def jsonMarshal : GoValue → Option String
  | GoValue.null => some "null"
  | GoValue.boolVal true => some "true"
  | GoValue.boolVal false => some "false"
  | GoValue.intVal n => some (toString n)
  | GoValue.strVal s => some (jsonQuote s)
  | GoValue.chanVal => none
  | GoValue.arr elems =>
      match jsonMarshalList elems with
      | none => none
      | some ss => some ("[" ++ String.intercalate "," ss ++ "]")
  | GoValue.obj fields =>
      match jsonMarshalFields fields with
      | none => none
      | some ss => some ("\x7b" ++ String.intercalate "," ss ++ "\x7d")

/-- Serialize the elements of a JSON array; fails if any element fails. -/
def jsonMarshalList : List GoValue → Option (List String)
  | [] => some []
  | v :: rest =>
      match jsonMarshal v, jsonMarshalList rest with
      | some s, some ss => some (s :: ss)
      | _, _ => none

/-- Serialize the fields of a JSON object; fails if any field fails. -/
def jsonMarshalFields : List (String × GoValue) → Option (List String)
  | [] => some []
  | (k, v) :: rest =>
      match jsonMarshal v, jsonMarshalFields rest with
      | some s, some ss => some ((jsonQuote k ++ ":" ++ s) :: ss)
      | _, _ => none

end

/-- A resource (src/core.go lines 18-40): a value that implements a subset
of the four capability interfaces GetSupported, PostSupported,
PutSupported, DeleteSupported. The type assertion `resource.(GetSupported)`
of the Go code succeeds exactly when the `get` field is `some`. -/
structure Resource where
  get : Option (Values → Int × GoValue)
  post : Option (Values → Int × GoValue)
  put : Option (Values → Int × GoValue)
  delete : Option (Values → Int × GoValue)

/-- The per-request context the handler of src/core.go consumes. Form
parsing (`request.ParseForm`) is an external collaborator (spec section 1);
the request carries its outcome: `none` is a parse error, `some form`
yields the parsed `request.Form`. The `path` and `header` fields are
carried by a real request but never consulted by the handler. -/
structure Request where
  method : String
  path : String
  header : List (String × String)
  parseForm : Option Values

/-- The four dispatchable verbs. -/
inductive Verb where
  | get
  | post
  | put
  | delete
  deriving DecidableEq, Repr

/-- One observable step of the handler: a capability invocation, a call to
`rw.WriteHeader`, or a call to `rw.Write`. -/
inductive Event where
  | called (v : Verb) (form : Values)
  | writeHeader (code : Int)
  | write (content : String)

/-- The `switch request.Method` of src/core.go lines 65-89: resolve the
verb to the resource's capability method, or `none` (Go: `handler == nil`)
when the verb is unsupported or the capability unimplemented. -/
def resolveHandler (resource : Resource) (method : String) :
    Option (Verb × (Values → Int × GoValue)) :=
  if method = GET then resource.get.map (fun h => (Verb.get, h))
  else if method = POST then resource.post.map (fun h => (Verb.post, h))
  else if method = PUT then resource.put.map (fun h => (Verb.put, h))
  else if method = DELETE then resource.delete.map (fun h => (Verb.delete, h))
  else none

/-- `(api *API) requestHandler` of src/core.go lines 57-100, as the trace
of writer calls (and capability invocations) it performs on one request.
On a marshal error `content` is Go's nil slice, so `rw.Write(content)`
writes the empty body. -/
def requestHandler (resource : Resource) (request : Request) : List Event :=
  match request.parseForm with
  | none => [Event.writeHeader statusBadRequest]
  | some form =>
    match resolveHandler resource request.method with
    | none => [Event.writeHeader statusMethodNotAllowed]
    | some (verb, handler) =>
      let result := handler form
      Event.called verb form ::
        match jsonMarshal result.2 with
        | none => [Event.writeHeader statusInternalServerError,
                   Event.writeHeader result.1, Event.write ""]
        | some content => [Event.writeHeader result.1, Event.write content]

/-- The HTTP status realized by a writer trace: the first `WriteHeader`
call wins (net/http ignores later ones). -/
def responseStatus : List Event → Option Int
  | [] => none
  | Event.writeHeader code :: _ => some code
  | Event.called _ _ :: rest => responseStatus rest
  | Event.write _ :: rest => responseStatus rest

/-- The response body realized by a writer trace: the concatenation of all
`Write` payloads. -/
def responseBody : List Event → String
  | [] => ""
  | Event.write s :: rest => s ++ responseBody rest
  | Event.writeHeader _ :: rest => responseBody rest
  | Event.called _ _ :: rest => responseBody rest

/-- The capability invocations a trace records, each with the form data it
was passed. -/
def calls : List Event → List (Verb × Values)
  | [] => []
  | Event.called v f :: rest => (v, f) :: calls rest
  | Event.writeHeader _ :: rest => calls rest
  | Event.write _ :: rest => calls rest

/-- Modelled from the spec: the route table of `http.ServeMux`, an
external collaborator (spec sections 1 and 6, item b), prescribed by the
spec as exact-path registration where the last registration for a given
path wins (spec section 3, Route invariant). -/
abbrev RouteTable := List (String × Resource)

/-- Modelled from the spec: `mux.HandleFunc(path, ...)` registers the
binding; a later registration for the same path shadows an earlier one. -/
def handleFunc (table : RouteTable) (path : String) (resource : Resource) :
    RouteTable :=
  (path, resource) :: table

/-- Modelled from the spec: exact-path dispatch over the route table; the
most recent registration for the path is found first. -/
def lookupRoute : RouteTable → String → Option Resource
  | [], _ => none
  | (p, r) :: rest, path => if path = p then some r else lookupRoute rest path

/-- `API` of src/core.go lines 48-50: `mux` is nil until the first
registration. -/
structure API where
  mux : Option RouteTable

/-- `NewAPI` of src/core.go lines 53-55. -/
def NewAPI : API := { mux := none }

/-- `(api *API) AddResource` of src/core.go lines 104-109: allocate the
route table on first use, then register the handler for `path`. -/
def AddResource (api : API) (resource : Resource) (path : String) : API :=
  match api.mux with
  | none => { mux := some (handleFunc [] path resource) }
  | some table => { mux := some (handleFunc table path resource) }

/-- The outcome of `Start`: the configuration error of src/core.go line
114, or delegation to `http.ListenAndServe` (an external collaborator) on
the formatted address, whose result `Start` returns verbatim. -/
inductive StartResult where
  | configError (msg : String)
  | listenAndServe (addr : String)
  deriving DecidableEq, Repr

/-- `fmt.Sprintf(":%d", port)` of src/core.go line 116. -/
def formatPort (port : Int) : String := ":" ++ toString port

/-- `(api *API) Start` of src/core.go lines 112-118. -/
def Start (api : API) (port : Int) : StartResult :=
  match api.mux with
  | none => StartResult.configError
      "You must add at least one resource to this API."
  | some _ => StartResult.listenAndServe (formatPort port)

/-- Dispatch through the API's route table: the resource registered at
`path`, if any. -/
def muxLookup (api : API) (path : String) : Option Resource :=
  match api.mux with
  | none => none
  | some table => lookupRoute table path

/-- A request served through the API: route on the path, then run the
registered resource's handler. `none` when no route matches. -/
def serve (api : API) (path : String) (request : Request) :
    Option (List Event) :=
  (muxLookup api path).map (fun r => requestHandler r request)

/-- An operation performed on an API instance after creation. -/
inductive ApiOp where
  | add (resource : Resource) (path : String)

/-- Apply one operation to the API state. -/
def applyOp (api : API) : ApiOp → API
  | ApiOp.add resource path => AddResource api resource path

/-- Apply a sequence of operations to the API state. -/
def applyOps (api : API) (ops : List ApiOp) : API := ops.foldl applyOp api

/-- A resource implementing only Get, returning (200, an "ok" object). -/
def itemsResource : Resource :=
  { get := some (fun _ => (200, GoValue.obj [("ok", GoValue.boolVal true)])),
    post := none,
    put := none,
    delete := none }

/-- A resource implementing only Post. -/
def altResource : Resource :=
  { get := none,
    post := some (fun _ => (201, GoValue.strVal "created")),
    put := none,
    delete := none }

/-- A resource whose Get returns data `json.Marshal` rejects. -/
def cyclicResource : Resource :=
  { get := some (fun _ => (200, GoValue.chanVal)),
    post := none,
    put := none,
    delete := none }

/-- Sample parsed form data. -/
def sampleForm : Values := [("id", ["1"])]

/-- A GET request whose form data parses to `sampleForm`. -/
def getItems : Request :=
  { method := "GET", path := "/items", header := [], parseForm := some sampleForm }

/-- The same logical request arriving at a different path with an extra
header. -/
def getItemsB : Request :=
  { method := "GET", path := "/other", header := [("X-Trace", "1")],
    parseForm := some sampleForm }

/-- A request whose form data fails to parse, with an unsupported verb. -/
def badFormRequest : Request :=
  { method := "PATCH", path := "/items", header := [], parseForm := none }

/-- A well-formed request with a verb outside the supported four. -/
def patchItems : Request :=
  { method := "PATCH", path := "/items", header := [], parseForm := some sampleForm }

/-- An API with `itemsResource` registered at /items. -/
def itemsApi : API := AddResource NewAPI itemsResource "/items"

/-- C1: for a registered resource and a request whose verb the resource
supports and whose form data parses, the dispatcher invokes exactly that
capability once with the parsed fields, and the response status and body
are the handler's status and the JSON encoding of its data. -/
theorem supported_verb_dispatch (resource : Resource) (request : Request)
    (form : Values) (verb : Verb) (handler : Values → Int × GoValue)
    (code : Int) (data : GoValue) (content : String)
    (hparse : request.parseForm = some form)
    (hres : resolveHandler resource request.method = some (verb, handler))
    (hcall : handler form = (code, data))
    (hser : jsonMarshal data = some content) :
    requestHandler resource request =
      [Event.called verb form, Event.writeHeader code, Event.write content] ∧
    calls (requestHandler resource request) = [(verb, form)] ∧
    responseStatus (requestHandler resource request) = some code ∧
    responseBody (requestHandler resource request) = content := by
  have htrace : requestHandler resource request =
      [Event.called verb form, Event.writeHeader code, Event.write content] := by
    simp [requestHandler, hparse, hres, hcall, hser]
  refine ⟨htrace, ?_, ?_, ?_⟩ <;> rw [htrace] <;> simp [calls, responseStatus, responseBody]

/-- C2: for any registered resource and path, a request whose form data
fails to parse gets a 400 response with empty body and no capability
invocation. -/
theorem parse_failure_yields_400 (api : API) (p : String) (request : Request)
    (events : List Event)
    (hroute : serve api p request = some events)
    (hparse : request.parseForm = none) :
    events = [Event.writeHeader statusBadRequest] ∧
    responseStatus events = some statusBadRequest ∧
    responseBody events = "" ∧
    calls events = [] := by
  obtain ⟨resource, hr, he⟩ := Option.map_eq_some'.mp hroute
  have : events = [Event.writeHeader statusBadRequest] := by
    rw [← he]; simp [requestHandler, hparse]
  subst this
  exact ⟨rfl, rfl, rfl, rfl⟩

/-- C3: a request whose verb is outside the four supported ones, or whose
verb the resource does not implement, gets a 405 response with empty body
and no capability invocation. -/
theorem unsupported_verb_yields_405 (resource : Resource) (request : Request)
    (form : Values)
    (hparse : request.parseForm = some form)
    (hm : (request.method ≠ GET ∧ request.method ≠ POST ∧
           request.method ≠ PUT ∧ request.method ≠ DELETE) ∨
          (request.method = GET ∧ resource.get = none) ∨
          (request.method = POST ∧ resource.post = none) ∨
          (request.method = PUT ∧ resource.put = none) ∨
          (request.method = DELETE ∧ resource.delete = none)) :
    requestHandler resource request = [Event.writeHeader statusMethodNotAllowed] ∧
    responseStatus (requestHandler resource request) = some statusMethodNotAllowed ∧
    responseBody (requestHandler resource request) = "" ∧
    calls (requestHandler resource request) = [] := by
  have hres : resolveHandler resource request.method = none := by
    rcases hm with ⟨h1, h2, h3, h4⟩ | ⟨h1, h2⟩ | ⟨h1, h2⟩ | ⟨h1, h2⟩ | ⟨h1, h2⟩
    · simp [resolveHandler, h1, h2, h3, h4]
    · simp [resolveHandler, h1, h2, GET, POST, PUT, DELETE]
    · simp [resolveHandler, h1, h2, GET, POST, PUT, DELETE]
    · simp [resolveHandler, h1, h2, GET, POST, PUT, DELETE]
    · simp [resolveHandler, h1, h2, GET, POST, PUT, DELETE]
  have htrace : requestHandler resource request = [Event.writeHeader statusMethodNotAllowed] := by
    simp [requestHandler, hparse, hres]
  rw [htrace]
  exact ⟨rfl, rfl, rfl, rfl⟩

/-- C4: when JSON serialization of the handler's data fails, the
dispatcher writes a 500 header, then still writes the handler-chosen
status and the (empty) serialized body, in that order. -/
theorem serialization_failure_write_order (resource : Resource) (request : Request)
    (form : Values) (verb : Verb) (handler : Values → Int × GoValue)
    (code : Int) (data : GoValue)
    (hparse : request.parseForm = some form)
    (hres : resolveHandler resource request.method = some (verb, handler))
    (hcall : handler form = (code, data))
    (hser : jsonMarshal data = none) :
    requestHandler resource request =
      [Event.called verb form, Event.writeHeader statusInternalServerError,
       Event.writeHeader code, Event.write ""] := by
  simp [requestHandler, hparse, hres, hcall, hser]

/-- C8: request handling depends only on the request's method and parsed
form fields, so two identical requests to the same resource produce
identical traces, hence identical status and body. -/
theorem request_handling_deterministic (resource : Resource) (r1 r2 : Request)
    (hm : r1.method = r2.method) (hf : r1.parseForm = r2.parseForm) :
    requestHandler resource r1 = requestHandler resource r2 ∧
    responseStatus (requestHandler resource r1) =
      responseStatus (requestHandler resource r2) ∧
    responseBody (requestHandler resource r1) =
      responseBody (requestHandler resource r2) := by
  have h : requestHandler resource r1 = requestHandler resource r2 := by
    unfold requestHandler
    rw [hm, hf]
  exact ⟨h, by rw [h], by rw [h]⟩

/-- C9: the form-parse check precedes verb resolution: on a parse failure
the response is 400 even when the verb is unsupported or unimplemented,
and no capability check outcome matters. -/
theorem parse_failure_precedes_verb_check (resource : Resource) (request : Request)
    (hparse : request.parseForm = none)
    (_hres : resolveHandler resource request.method = none) :
    requestHandler resource request = [Event.writeHeader statusBadRequest] ∧
    responseStatus (requestHandler resource request) = some statusBadRequest ∧
    calls (requestHandler resource request) = [] := by
  have htrace : requestHandler resource request = [Event.writeHeader statusBadRequest] := by
    simp [requestHandler, hparse]
  rw [htrace]
  exact ⟨rfl, rfl, rfl⟩

/-- C5: Start returns the configuration error exactly when no resource has
been registered (mux is nil); otherwise it delegates to
`http.ListenAndServe` on the formatted port, returning its result. -/
theorem start_requires_registered_resource (api : API) (port : Int) :
    (Start api port =
       StartResult.configError "You must add at least one resource to this API."
     ↔ api.mux = none) ∧
    (Start api port = StartResult.listenAndServe (formatPort port)
     ↔ api.mux.isSome = true) := by
  obtain ⟨mux⟩ := api
  cases mux <;> simp [Start]

/-- One-step characterization of registration: a new binding shadows the
old one at the same path and leaves other paths untouched. -/
theorem muxLookup_addResource (api : API) (resource : Resource) (p q : String) :
    muxLookup (AddResource api resource p) q =
      if q = p then some resource else muxLookup api q := by
  obtain ⟨mux⟩ := api
  cases mux <;> simp [AddResource, muxLookup, handleFunc, lookupRoute]

/-- C6: registering a second resource at an already-registered path
succeeds and the last registration wins: subsequent requests to that path
dispatch to the most recently registered resource. -/
theorem last_registration_wins (api : API) (r1 r2 : Resource) (p : String)
    (request : Request) :
    muxLookup (AddResource (AddResource api r1 p) r2 p) p = some r2 ∧
    serve (AddResource (AddResource api r1 p) r2 p) p request =
      some (requestHandler r2 request) := by
  have h := muxLookup_addResource (AddResource api r1 p) r2 p p
  simp only [if_pos rfl] at h
  exact ⟨h, by simp [serve, h]⟩

/-- C7: AddResource is a total function with no failure outcome: for every
API state, resource and path it returns the API with the binding
installed. -/
theorem addResource_never_fails (api : API) (resource : Resource) (path : String) :
    AddResource api resource path =
      { mux := some (handleFunc (api.mux.getD []) path resource) } := by
  obtain ⟨mux⟩ := api
  cases mux <;> rfl

/-- The route table stays allocated under any further operation. -/
theorem applyOps_mux_isSome (ops : List ApiOp) (api : API)
    (h : api.mux.isSome = true) : (applyOps api ops).mux.isSome = true := by
  induction ops generalizing api with
  | nil => exact h
  | cons op rest ih =>
      show (applyOps (applyOp api op) rest).mux.isSome = true
      apply ih
      cases op with
      | add r p =>
          obtain ⟨mux⟩ := api
          cases mux <;> simp [applyOp, AddResource]

/-- C10: after the first AddResource the mux is non-nil and stays non-nil
under every subsequent operation, so Start's zero-routes error branch is
unreachable. -/
theorem mux_persists_after_first_registration (api : API) (resource : Resource)
    (path : String) (ops : List ApiOp) (port : Int) :
    ((applyOps (AddResource api resource path) ops).mux.isSome = true) ∧
    Start (applyOps (AddResource api resource path) ops) port =
      StartResult.listenAndServe (formatPort port) := by
  have h0 : (AddResource api resource path).mux.isSome = true := by
    obtain ⟨mux⟩ := api
    cases mux <;> simp [AddResource]
  have h := applyOps_mux_isSome ops _ h0
  refine ⟨h, ?_⟩
  obtain ⟨t, ht⟩ := Option.isSome_iff_exists.mp h
  simp [Start, ht]

/-- C1 witness: the concrete GET dispatch. -/
theorem supported_verb_dispatch_witness :
    requestHandler itemsResource getItems =
      [Event.called Verb.get sampleForm, Event.writeHeader 200,
       Event.write "\x7b\"ok\":true\x7d"] ∧
    calls (requestHandler itemsResource getItems) = [(Verb.get, sampleForm)] ∧
    responseStatus (requestHandler itemsResource getItems) = some 200 ∧
    responseBody (requestHandler itemsResource getItems) = "\x7b\"ok\":true\x7d" :=
  supported_verb_dispatch itemsResource getItems sampleForm Verb.get
    (fun _ => (200, GoValue.obj [("ok", GoValue.boolVal true)])) 200
    (GoValue.obj [("ok", GoValue.boolVal true)]) "\x7b\"ok\":true\x7d"
    rfl rfl rfl rfl

/-- C2 witness: a malformed request served through a registered API. -/
theorem parse_failure_yields_400_witness :
    [Event.writeHeader statusBadRequest] = [Event.writeHeader statusBadRequest] ∧
    responseStatus [Event.writeHeader statusBadRequest] = some statusBadRequest ∧
    responseBody [Event.writeHeader statusBadRequest] = "" ∧
    calls [Event.writeHeader statusBadRequest] = [] :=
  parse_failure_yields_400 itemsApi "/items" badFormRequest
    [Event.writeHeader statusBadRequest] rfl rfl

/-- C3 witness: a PATCH request to a resource implementing only Get. -/
theorem unsupported_verb_yields_405_witness :
    requestHandler itemsResource patchItems =
      [Event.writeHeader statusMethodNotAllowed] ∧
    responseStatus (requestHandler itemsResource patchItems) =
      some statusMethodNotAllowed ∧
    responseBody (requestHandler itemsResource patchItems) = "" ∧
    calls (requestHandler itemsResource patchItems) = [] :=
  unsupported_verb_yields_405 itemsResource patchItems sampleForm rfl
    (Or.inl ⟨by decide, by decide, by decide, by decide⟩)

/-- C4 witness: a Get handler returning non-serializable data. -/
theorem serialization_failure_write_order_witness :
    requestHandler cyclicResource getItems =
      [Event.called Verb.get sampleForm,
       Event.writeHeader statusInternalServerError,
       Event.writeHeader 200, Event.write ""] :=
  serialization_failure_write_order cyclicResource getItems sampleForm Verb.get
    (fun _ => (200, GoValue.chanVal)) 200 GoValue.chanVal rfl rfl rfl rfl

/-- C5 witness: an empty API fails to start; a registered one delegates. -/
theorem start_requires_registered_resource_witness :
    Start NewAPI 8080 =
      StartResult.configError "You must add at least one resource to this API." ∧
    Start itemsApi 8080 = StartResult.listenAndServe (formatPort 8080) :=
  ⟨(start_requires_registered_resource NewAPI 8080).1.mpr rfl,
   (start_requires_registered_resource itemsApi 8080).2.mpr rfl⟩

/-- C6 witness: re-registering /items dispatches to the new resource. -/
theorem last_registration_wins_witness :
    muxLookup (AddResource (AddResource NewAPI itemsResource "/items")
      altResource "/items") "/items" = some altResource ∧
    serve (AddResource (AddResource NewAPI itemsResource "/items")
      altResource "/items") "/items" getItems =
      some (requestHandler altResource getItems) :=
  last_registration_wins NewAPI itemsResource altResource "/items" getItems

/-- C7 witness: AddResource at a concrete state and arguments. -/
theorem addResource_never_fails_witness :
    AddResource NewAPI itemsResource "/items" =
      { mux := some (handleFunc (NewAPI.mux.getD []) "/items" itemsResource) } :=
  addResource_never_fails NewAPI itemsResource "/items"

/-- C8 witness: the same method and form data at a different path and
headers give the identical trace. -/
theorem request_handling_deterministic_witness :
    requestHandler itemsResource getItems = requestHandler itemsResource getItemsB ∧
    responseStatus (requestHandler itemsResource getItems) =
      responseStatus (requestHandler itemsResource getItemsB) ∧
    responseBody (requestHandler itemsResource getItems) =
      responseBody (requestHandler itemsResource getItemsB) :=
  request_handling_deterministic itemsResource getItems getItemsB rfl rfl

/-- C9 witness: parse failure with an unsupported verb still yields 400. -/
theorem parse_failure_precedes_verb_check_witness :
    requestHandler itemsResource badFormRequest =
      [Event.writeHeader statusBadRequest] ∧
    responseStatus (requestHandler itemsResource badFormRequest) =
      some statusBadRequest ∧
    calls (requestHandler itemsResource badFormRequest) = [] :=
  parse_failure_precedes_verb_check itemsResource badFormRequest rfl rfl

/-- C10 witness: a concrete registration followed by another operation. -/
theorem mux_persists_after_first_registration_witness :
    ((applyOps (AddResource NewAPI itemsResource "/items")
        [ApiOp.add altResource "/other"]).mux.isSome = true) ∧
    Start (applyOps (AddResource NewAPI itemsResource "/items")
        [ApiOp.add altResource "/other"]) 8080 =
      StartResult.listenAndServe (formatPort 8080) :=
  mux_persists_after_first_registration NewAPI itemsResource "/items"
    [ApiOp.add altResource "/other"] 8080

end Sleepy
